import Mathlib

/-!
Verification of the playback state machine, progress monitor loop,
conversion submission path, API-key gating and output-path resolution
of `src/tts_tool.py` (a Tk GUI around a text-to-speech call and a
pygame-based audio player).

Times and durations are modelled as rationals (the source uses
floating-point seconds from `time.time()` and `Sound.get_length()`).
Purely presentational side effects (status-bar strings of the playback
code, message boxes, widget geometry) are elided; every field kept in
the model is updated exactly where the source updates it.
-/

namespace TTSTool

/-- The three values of `TTSApp.playback_state` ("stopped", "playing", "paused"). -/
inductive PlaybackState
  | stopped
  | playing
  | paused
deriving DecidableEq

/-- The mutable attributes of `TTSApp` that the playback code touches:
`playback_state`, `playback_start_time`, `paused_elapsed_time`, the
progress bar value and maximum, `current_filepath`, `sound_object`
(modelled by its `get_length()` result), the play/pause button text,
and the set of live monitor threads (their `threading.Thread` names)
together with the counter Python uses to generate default thread names. -/
structure AppState where
  playback_state : PlaybackState
  playback_start_time : ℚ
  paused_elapsed_time : ℚ
  progressValue : ℚ
  progressMax : ℚ
  current_filepath : Option String
  sound_object : Option ℚ
  playButtonText : String
  monitorThreads : List String
  threadCounter : Nat
deriving DecidableEq

/-- Errors surfaced by `_toggle_play_pause`: the "No audio file to play"
message box, and the `pygame.error` branch ("Could not play audio"). -/
inductive PlaybackSignal
  | noAudioLoaded
  | playbackDeviceError
deriving DecidableEq

/-- Outcome of `pygame.mixer.Sound(self.current_filepath)`: a loaded sound
with its duration in seconds, or a raised `pygame.error`. -/
inductive LoadResult
  | ok (duration : ℚ)
  | err
deriving DecidableEq

/-- The thread name the resume branch of `_toggle_play_pause` checks for
and assigns (line 352-353 of the source). -/
def monitorThreadName : String := "_monitor_playback_thread"

/-- The successful part of the `playback_state == "stopped"` branch of
`_toggle_play_pause`: configure the progress bar with the sound's length,
reset `paused_elapsed_time`, start playback, record `playback_start_time`,
switch to "playing", and spawn the monitor thread.  The thread spawned
here is created WITHOUT a name (line 333), so it receives a Python
default name of the form `Thread-N`. -/
def startPlay (s : AppState) (d : ℚ) (now : ℚ) : AppState :=
  { s with
    sound_object := some d,
    progressMax := d,
    progressValue := 0,
    paused_elapsed_time := 0,
    playback_start_time := now,
    playback_state := .playing,
    playButtonText := "Pause",
    monitorThreads := s.monitorThreads ++ ["Thread-" ++ toString s.threadCounter],
    threadCounter := s.threadCounter + 1 }

/-- `TTSApp._toggle_play_pause` (source lines 314-353).  `now` is the value
`time.time()` returns during this call; `load` is the outcome of
`pygame.mixer.Sound(...)` in case the stopped branch has to load the sound
(when `self.sound_object` is already set, the load is skipped and the
existing sound is reused).  The `pygame.error` handler is modelled at the
resource-load step; it sets the state back to "stopped", the button text
to "Play" and the progress bar value to 0.  The second component is the
error reported to the user, if any. -/
def togglePlayPause (s : AppState) (now : ℚ) (load : LoadResult) :
    AppState × Option PlaybackSignal :=
  if s.current_filepath = none then (s, some .noAudioLoaded)
  else
    match s.playback_state with
    | .stopped =>
      match s.sound_object, load with
      | none, .err =>
        ({ s with playback_state := .stopped, playButtonText := "Play",
                  progressValue := 0 },
         some .playbackDeviceError)
      | none, .ok d => (startPlay s d now, none)
      | some d, _ => (startPlay s d now, none)
    | .playing =>
      ({ s with
          paused_elapsed_time := (now - s.playback_start_time) + s.paused_elapsed_time,
          playback_state := .paused,
          playButtonText := "Resume" },
       none)
    | .paused =>
      let s1 := { s with playback_start_time := now,
                         playback_state := .playing,
                         playButtonText := "Pause" }
      if s1.monitorThreads.any (· == monitorThreadName) then (s1, none)
      else ({ s1 with monitorThreads := s1.monitorThreads ++ [monitorThreadName] }, none)

/-- `TTSApp._stop_audio` (source lines 355-367).  `busy` is what
`pygame.mixer.get_busy()` returns; the mixer is stopped and the sound
object dropped only when a sound is loaded and the mixer is busy, but the
state, button text, progress value and accumulated elapsed time are reset
unconditionally. -/
def stopAudio (s : AppState) (busy : Bool) : AppState :=
  let s1 := if s.sound_object.isSome && busy then { s with sound_object := none } else s
  { s1 with playback_state := .stopped,
            playButtonText := "Play",
            progressValue := 0,
            paused_elapsed_time := 0 }

/-- The success branch of `TTSApp._perform_tts_conversion` (source lines
296-305): store the new file path, re-enable the transport buttons with the
"Play" label, set the state to "stopped", reset the progress bar value and
drop the previously loaded sound object.  `paused_elapsed_time`,
`playback_start_time` and the progress bar maximum are not touched. -/
def performTtsConversionSuccess (s : AppState) (path : String) : AppState :=
  { s with current_filepath := some path,
           playButtonText := "Play",
           playback_state := .stopped,
           progressValue := 0,
           sound_object := none }

/-- `TTSApp._playback_finished_gui_update` (source lines 385-393): only when
the state is still "playing", switch to "stopped", set the button label
back to "Play", pin the progress bar at its maximum and reset
`paused_elapsed_time`. -/
def playbackFinishedGuiUpdate (s : AppState) : AppState :=
  if s.playback_state = .playing then
    { s with playback_state := .stopped,
             playButtonText := "Play",
             progressValue := s.progressMax,
             paused_elapsed_time := 0 }
  else s

/-- One iteration's view of the shared state read by `_monitor_playback`:
a snapshot of the `TTSApp` attributes, the mixer's busy flag, and the
current `time.time()` value.  The post-loop finished check is modelled as
reading the same snapshot on which the `while` condition failed. -/
structure MonObs where
  snap : AppState
  busy : Bool
  now : ℚ
deriving DecidableEq

/-- Python's two-argument `min`: the first argument when it is less than or
equal to the second, the second otherwise. -/
def pyMin (a b : ℚ) : ℚ := if a ≤ b then a else b

/-- The progress value one iteration of the monitor loop pushes to the UI
(source lines 372-378): elapsed time since the current playing interval
began plus the accumulated paused-time credit, clamped from above by the
progress bar's maximum. -/
def sampleValue (o : MonObs) : ℚ :=
  pyMin ((o.now - o.snap.playback_start_time) + o.snap.paused_elapsed_time)
    o.snap.progressMax

/-- `TTSApp._monitor_playback` (source lines 369-383) over a trace of shared
state observations: while the observed state is "playing" and the mixer is
busy, push a clamped sample; on the first observation failing that
condition, exit and schedule `_playback_finished_gui_update` exactly when
the state is still "playing" while the mixer is idle.  Returns the list of
pushed progress values and the number of scheduled finish updates. -/
def monitorPlayback : List MonObs → List ℚ × Nat
  | [] => ([], 0)
  | o :: rest =>
    if o.snap.playback_state = .playing ∧ o.busy = true then
      (sampleValue o :: (monitorPlayback rest).1, (monitorPlayback rest).2)
    else
      ([], if o.snap.playback_state = .playing ∧ o.busy = false then 1 else 0)

/-- The observation on which the monitor loop's `while` condition first
fails, if the trace contains one. -/
def monitorExitObs : List MonObs → Option MonObs
  | [] => none
  | o :: rest =>
    if o.snap.playback_state = .playing ∧ o.busy = true then monitorExitObs rest
    else some o

/-- Modelled from the spec: the elapsed-time invariant of §3,
`elapsed = accumulatedElapsed + (now - startTimestamp)` if Playing,
`accumulatedElapsed` otherwise, stated over the source's fields
(`paused_elapsed_time` is the spec's `accumulatedElapsed`,
`playback_start_time` its `startTimestamp`). -/
def specElapsed (s : AppState) (now : ℚ) : ℚ :=
  if s.playback_state = .playing then s.paused_elapsed_time + (now - s.playback_start_time)
  else s.paused_elapsed_time

/-- The characters Python's `str.strip()` removes (ASCII whitespace as used
by CPython for `str` without arguments). -/
def isPySpace (c : Char) : Bool :=
  c == ' ' || c == '\t' || c == '\n' || c == '\r' || c == '\x0b' || c == '\x0c'

/-- Python's `str.strip()`: drop whitespace from both ends. -/
def pyStrip (s : List Char) : List Char :=
  ((s.dropWhile isPySpace).reverse.dropWhile isPySpace).reverse

/-- Python's `str.rstrip(chr 10)` as used by `_update_char_count`: drop
trailing newline characters only. -/
def pyRstripNewline (s : List Char) : List Char :=
  (s.reverse.dropWhile (· == '\n')).reverse

/-- What `TTSApp._convert_tts_threaded` does with a submission: reject it
with one of three message boxes, or start the background conversion thread
carrying the stripped text and output filename. -/
inductive SubmitAction
  | rejectInputTooLong
  | rejectEmptyInput
  | rejectNoOutputFilename
  | startConversionThread (text outputFilename : List Char)
deriving DecidableEq

/-- `TTSApp._convert_tts_threaded` (source lines 261-292).  `rawText` is
what `self.text_input.get("1.0", tk.END)` returns, `rawOutput` the output
filename field; both are stripped before any check, and the 4096-character
limit is tested on the stripped text.  Only the final branch reaches
`threading.Thread(...).start()` and hence the network synthesis call. -/
def convertTtsThreaded (rawText rawOutput : List Char) : SubmitAction :=
  let text := pyStrip rawText
  let charCount := text.length
  if charCount > 4096 then .rejectInputTooLong
  else if charCount = 0 ∧ text = [] then .rejectEmptyInput
  else
    let outputFilename := pyStrip rawOutput
    if outputFilename = [] then .rejectNoOutputFilename
    else .startConversionThread text outputFilename

/-- Python's `str.startswith(pre)`. -/
def pyStartsWith (s pre : String) : Bool :=
  pre.data.isPrefixOf s.data

/-- The `TTSApp` attributes involved in gating the "Convert to Speech"
button: whether `OPENAI_API_KEY` is configured (truthy), whether the
convert button is enabled (`tk.NORMAL` as opposed to `tk.DISABLED`), the
button's label, the status bar text and the red warning colouring of the
character-count label. -/
structure UiState where
  apiKeyConfigured : Bool
  convertEnabled : Bool
  convertButtonText : String
  statusText : String
  charLabelRed : Bool
deriving DecidableEq

/-- The widget state right after `TTSApp._create_widgets`: the convert
button is created enabled with its default label, and the status bar holds
its initial message. -/
def initUi (apiKeyConfigured : Bool) : UiState :=
  { apiKeyConfigured := apiKeyConfigured,
    convertEnabled := true,
    convertButtonText := "Convert to Speech",
    statusText := "Ready. Inspired by naturalreaders.com/online/",
    charLabelRed := false }

/-- `TTSApp._check_api_key` (source lines 151-154): when the credential is
absent, record the critical error in the status bar and disable the convert
button. -/
def checkApiKey (s : UiState) : UiState :=
  if s.apiKeyConfigured then s
  else { s with
          statusText := "Critical Error: Valid OPENAI_API_KEY is not configured in the .env file.",
          convertEnabled := false }

/-- `TTSApp._update_char_count` (source lines 236-249), run on every key
release.  `raw` is the text widget's content including the trailing newline
tk appends.  Over the limit: colour the label red and set a warning status.
At or under the limit: clear the colour, re-enable a disabled convert
button unless a conversion is in flight (button label "Converting..." or a
status starting with "Converting"), and replace a lingering warning status
with "Ready.". -/
def updateCharCount (s : UiState) (raw : List Char) : UiState :=
  let charCount := (pyRstripNewline raw).length
  if charCount > 4096 then
    { s with charLabelRed := true,
             statusText := "Warning: Character count exceeds 4096 limit!" }
  else
    let s1 := { s with charLabelRed := false }
    let s2 :=
      if s1.convertButtonText ≠ "Converting..." ∧
          s1.convertEnabled = false ∧ pyStartsWith s1.statusText "Converting" = false then
        { s1 with convertEnabled := true }
      else s1
    if pyStartsWith s2.statusText "Warning: Character count" then
      { s2 with statusText := "Ready." }
    else s2

/-- What the program's entry point produces: either a blocking startup
error with no application window at all (so no synthesis trigger exists),
or a running application with its widget state. -/
inductive StartupOutcome
  | blockedMissingKey
  | running (ui : UiState)
deriving DecidableEq

/-- `main_gui` (source lines 396-411): when the credential is absent it
shows a blocking error dialog and returns without constructing `TTSApp`;
otherwise it constructs the application (`__init__` runs `_create_widgets`
then `_check_api_key`) and calls `_update_char_count` on the empty text
widget (whose tk content is a single newline) before entering the main
loop. -/
def mainGui (apiKeyConfigured : Bool) : StartupOutcome :=
  if ¬ apiKeyConfigured then .blockedMissingKey
  else .running (updateCharCount (checkApiKey (initUi apiKeyConfigured)) ['\n'])

/-- Modelled from the spec: whether the normal UI flow offers a usable
synthesis trigger — false when startup was blocked before any window
existed, otherwise the enabled-state of the convert button. -/
def synthesisTriggerAvailable : StartupOutcome → Bool
  | .blockedMissingKey => false
  | .running ui => ui.convertEnabled

/-- A `pathlib.PurePath`: whether it is absolute, and its non-empty
segments (each a list of characters). -/
structure PurePath where
  absolute : Bool
  segments : List (List Char)
deriving DecidableEq

/-- Split a character list at every slash. -/
def splitSlash : List Char → List (List Char)
  | [] => [[]]
  | c :: rest =>
    if c = '/' then [] :: splitSlash rest
    else
      match splitSlash rest with
      | [] => [[c]]
      | seg :: segs => (c :: seg) :: segs

/-- `pathlib.Path(s)` on a POSIX-style string: absolute exactly when the
string starts with a slash; empty segments collapse. -/
def parsePath (s : String) : PurePath :=
  { absolute := pyStartsWith s "/",
    segments := (splitSlash s.data).filter (fun seg => seg != []) }

/-- `PurePath.parent`: drop the last segment. -/
def pathParent (p : PurePath) : PurePath :=
  { p with segments := p.segments.dropLast }

/-- The `/` operator of `pathlib`: joining with an absolute child discards
the base, otherwise the child's segments are appended. -/
def pathJoin (base : PurePath) (child : String) : PurePath :=
  let c := parsePath child
  if c.absolute then c else { base with segments := base.segments ++ c.segments }

/-- The filesystem side effects of `text_to_speech_gui`, in order. -/
inductive FsEffect
  | mkdirParents (p : PurePath)
  | streamToFile (p : PurePath)
deriving DecidableEq

/-- The output-path resolution of `text_to_speech_gui` (source lines
104-108): parse the caller-supplied filename; when it is not absolute,
replace it by `Path(__file__).parent / output_filename`, the directory that
contains the program's source file (`scriptDir`). -/
def ttsGuiSpeechFilePath (scriptDir : PurePath) (output_filename : String) : PurePath :=
  let p := parsePath output_filename
  if ¬ p.absolute then pathJoin scriptDir output_filename else p

/-- The filesystem actions of `text_to_speech_gui` (source lines 104-121):
create the resolved path's parent directories, then stream the synthesized
audio into the resolved path. -/
def ttsGuiFileEffects (scriptDir : PurePath) (output_filename : String) : List FsEffect :=
  let p := ttsGuiSpeechFilePath scriptDir output_filename
  [.mkdirParents (pathParent p), .streamToFile p]

/-- Modelled from the spec: the claim's resolution rule — an absolute
output filename is used as given, a relative one is resolved against the
directory containing the program's source file. -/
def specResolveOutput (scriptDir : PurePath) (output_filename : String) : PurePath :=
  let p := parsePath output_filename
  if p.absolute then p
  else { scriptDir with segments := scriptDir.segments ++ p.segments }

/-- A session in mid-playback: three seconds of audio remain, the monitor
thread spawned by the start branch (with its Python default name) is
running. -/
def sessionPlaying : AppState :=
  { playback_state := .playing, playback_start_time := 0, paused_elapsed_time := 0,
    progressValue := 0, progressMax := 10,
    current_filepath := some "speech_output.mp3", sound_object := some 10,
    playButtonText := "Pause", monitorThreads := ["Thread-1"], threadCounter := 2 }

/-- A stopped session with no audio file loaded whose progress bar still
reads 3 (as after a finished playback followed by a failed conversion). -/
def sessionStoppedNoFile : AppState :=
  { playback_state := .stopped, playback_start_time := 0, paused_elapsed_time := 0,
    progressValue := 3, progressMax := 10,
    current_filepath := none, sound_object := none,
    playButtonText := "Play", monitorThreads := [], threadCounter := 1 }

/-- A freshly converted, stopped session: a file path is known but no sound
object has been loaded yet. -/
def sessionStoppedLoaded : AppState :=
  { playback_state := .stopped, playback_start_time := 0, paused_elapsed_time := 0,
    progressValue := 0, progressMax := 0,
    current_filepath := some "speech_output.mp3", sound_object := none,
    playButtonText := "Play", monitorThreads := [], threadCounter := 1 }

/-- A paused session carrying five seconds of accumulated elapsed time. -/
def sessionPausedAccum : AppState :=
  { playback_state := .paused, playback_start_time := 0, paused_elapsed_time := 5,
    progressValue := 5, progressMax := 10,
    current_filepath := some "old.mp3", sound_object := some 10,
    playButtonText := "Resume", monitorThreads := ["Thread-1"], threadCounter := 2 }

theorem pyMin_le_right (a b : ℚ) : pyMin a b ≤ b := by
  unfold pyMin
  split
  · assumption
  · exact le_refl b

theorem le_pyMin (a b c : ℚ) (ha : c ≤ a) (hb : c ≤ b) : c ≤ pyMin a b := by
  unfold pyMin
  split
  · exact ha
  · exact hb

/-- Claim C1: every value the progress monitor loop pushes to the progress
display arises at an observation in the Playing state, equals the spec's
elapsed-time invariant (`accumulatedElapsed + (now - startTimestamp)` while
Playing, `accumulatedElapsed` otherwise) clamped by `durationTotal`, and —
provided the clock has not run backwards past the interval start, the
accumulated elapsed time is non-negative and the duration is non-negative —
lies within `[0, durationTotal]`. -/
theorem c1_monitor_sample_invariant (obs : List MonObs) (v : ℚ)
    (hv : v ∈ (monitorPlayback obs).1) :
    ∃ o, o ∈ obs ∧ o.snap.playback_state = .playing ∧ o.busy = true ∧
      v = pyMin (specElapsed o.snap o.now) o.snap.progressMax ∧
      (0 ≤ o.snap.paused_elapsed_time → o.snap.playback_start_time ≤ o.now →
        0 ≤ o.snap.progressMax → 0 ≤ v ∧ v ≤ o.snap.progressMax) := by
  induction obs with
  | nil => simp [monitorPlayback] at hv
  | cons o rest ih =>
    by_cases h : o.snap.playback_state = .playing ∧ o.busy = true
    · rw [monitorPlayback, if_pos h] at hv
      rcases List.mem_cons.mp hv with hveq | hvmem
      · refine ⟨o, List.mem_cons_self o rest, h.1, h.2, ?_, ?_⟩
        · rw [hveq]
          simp only [sampleValue, specElapsed, h.1, if_pos]
          rw [add_comm (o.snap.paused_elapsed_time) (o.now - o.snap.playback_start_time)]
        · intro hacc hnow hmax
          rw [hveq]
          constructor
          · refine le_pyMin _ _ _ ?_ hmax
            exact add_nonneg (sub_nonneg.mpr hnow) hacc
          · exact pyMin_le_right _ _
      · obtain ⟨o1, ho1, hrest⟩ := ih hvmem
        exact ⟨o1, List.mem_cons_of_mem o ho1, hrest⟩
    · rw [monitorPlayback, if_neg h] at hv
      simp at hv

/-- Claim C1 witness: one monitor iteration two seconds into playback of a
ten-second sound pushes the value 2. -/
theorem c1_monitor_sample_invariant_witness :
    (2 : ℚ) ∈ (monitorPlayback [⟨sessionPlaying, true, 2⟩]).1 ∧
    (∃ o, o ∈ [(⟨sessionPlaying, true, 2⟩ : MonObs)] ∧
      o.snap.playback_state = .playing ∧ o.busy = true ∧
      (2 : ℚ) = pyMin (specElapsed o.snap o.now) o.snap.progressMax ∧
      (0 ≤ o.snap.paused_elapsed_time → o.snap.playback_start_time ≤ o.now →
        0 ≤ o.snap.progressMax → 0 ≤ (2 : ℚ) ∧ (2 : ℚ) ≤ o.snap.progressMax)) :=
  ⟨by norm_num [monitorPlayback, sampleValue, pyMin, sessionPlaying],
   c1_monitor_sample_invariant [⟨sessionPlaying, true, 2⟩] 2
     (by norm_num [monitorPlayback, sampleValue, pyMin, sessionPlaying])⟩

/-- Claim C2: from a Playing session with a loaded file, toggling at time
`now1` pauses and folds `now1 - startTimestamp` into the accumulated
elapsed time, and toggling again at time `now2` resumes, setting the start
timestamp to `now2` and leaving the accumulated elapsed time untouched, so
that the elapsed time immediately after the resume equals the elapsed time
immediately before the pause. -/
theorem c2_pause_resume_preserves_elapsed (s : AppState) (now1 now2 : ℚ)
    (load1 load2 : LoadResult)
    (hfile : s.current_filepath ≠ none) (hplay : s.playback_state = .playing) :
    ((togglePlayPause s now1 load1).1).playback_state = .paused ∧
    ((togglePlayPause s now1 load1).1).paused_elapsed_time
        = (now1 - s.playback_start_time) + s.paused_elapsed_time ∧
    ((togglePlayPause ((togglePlayPause s now1 load1).1) now2 load2).1).playback_state
        = .playing ∧
    ((togglePlayPause ((togglePlayPause s now1 load1).1) now2 load2).1).playback_start_time
        = now2 ∧
    ((togglePlayPause ((togglePlayPause s now1 load1).1) now2 load2).1).paused_elapsed_time
        = ((togglePlayPause s now1 load1).1).paused_elapsed_time ∧
    specElapsed ((togglePlayPause ((togglePlayPause s now1 load1).1) now2 load2).1) now2
        = specElapsed s now1 := by
  have e1 : togglePlayPause s now1 load1 =
      ({ s with
          paused_elapsed_time := (now1 - s.playback_start_time) + s.paused_elapsed_time,
          playback_state := .paused,
          playButtonText := "Resume" }, none) := by
    rw [togglePlayPause.eq_def, if_neg hfile, hplay]
  rw [e1]
  by_cases hm : (List.any s.monitorThreads fun t => t == monitorThreadName) = true
  · have e2 : togglePlayPause
        ({ s with
            paused_elapsed_time := (now1 - s.playback_start_time) + s.paused_elapsed_time,
            playback_state := .paused,
            playButtonText := "Resume" } : AppState) now2 load2 =
        ({ s with
            paused_elapsed_time := (now1 - s.playback_start_time) + s.paused_elapsed_time,
            playback_start_time := now2,
            playback_state := .playing,
            playButtonText := "Pause" }, none) := by
      simp [togglePlayPause.eq_def, hfile, hm]
    rw [e2]
    refine ⟨rfl, rfl, rfl, rfl, rfl, ?_⟩
    simp only [specElapsed, hplay, if_pos]
    ring
  · have e2 : togglePlayPause
        ({ s with
            paused_elapsed_time := (now1 - s.playback_start_time) + s.paused_elapsed_time,
            playback_state := .paused,
            playButtonText := "Resume" } : AppState) now2 load2 =
        ({ s with
            paused_elapsed_time := (now1 - s.playback_start_time) + s.paused_elapsed_time,
            playback_start_time := now2,
            playback_state := .playing,
            playButtonText := "Pause",
            monitorThreads := s.monitorThreads ++ [monitorThreadName] }, none) := by
      simp [togglePlayPause.eq_def, hfile, hm]
    rw [e2]
    refine ⟨rfl, rfl, rfl, rfl, rfl, ?_⟩
    simp only [specElapsed, hplay, if_pos]
    ring

/-- Claim C2 witness: pausing three seconds in and resuming at time 7
leaves the elapsed time at three seconds. -/
theorem c2_pause_resume_preserves_elapsed_witness :
    sessionPlaying.current_filepath ≠ none ∧
    sessionPlaying.playback_state = .playing ∧
    specElapsed ((togglePlayPause ((togglePlayPause sessionPlaying 3 .err).1) 7 .err).1) 7
        = specElapsed sessionPlaying 3 :=
  ⟨by simp [sessionPlaying], rfl,
   (c2_pause_resume_preserves_elapsed sessionPlaying 3 7 .err .err
     (by simp [sessionPlaying]) rfl).2.2.2.2.2⟩

/-- Claim C3: `_stop_audio` always sets the state to Stopped, the
accumulated elapsed time to 0, and the progress display to 0, whatever the
prior state and whether or not the mixer was busy. -/
theorem c3_stop_resets (s : AppState) (busy : Bool) :
    (stopAudio s busy).playback_state = .stopped ∧
    (stopAudio s busy).paused_elapsed_time = 0 ∧
    (stopAudio s busy).progressValue = 0 :=
  ⟨rfl, rfl, rfl⟩

/-- Claim C4: the monitor loop schedules the natural-finish update at most
once per run, exactly once when it exits on an observation where the state
is still Playing and the mixer is idle; and the update, applied while the
state is still Playing, moves the session to Stopped with the progress
display pinned at `durationTotal` and the accumulated elapsed time reset
to 0. -/
theorem c4_natural_finish (obs : List MonObs) (s : AppState) :
    (monitorPlayback obs).2 ≤ 1 ∧
    (∀ o, monitorExitObs obs = some o → o.snap.playback_state = .playing →
      o.busy = false → (monitorPlayback obs).2 = 1) ∧
    (s.playback_state = .playing →
      (playbackFinishedGuiUpdate s).playback_state = .stopped ∧
      (playbackFinishedGuiUpdate s).progressValue = s.progressMax ∧
      (playbackFinishedGuiUpdate s).paused_elapsed_time = 0) := by
  refine ⟨?_, ?_, ?_⟩
  · induction obs with
    | nil => simp [monitorPlayback]
    | cons o rest ih =>
      by_cases h : o.snap.playback_state = .playing ∧ o.busy = true
      · rw [monitorPlayback, if_pos h]
        exact ih
      · rw [monitorPlayback, if_neg h]
        split
        · exact le_refl 1
        · exact Nat.zero_le 1
  · induction obs with
    | nil =>
      intro o ho
      simp [monitorExitObs] at ho
    | cons o rest ih =>
      intro o1 ho1 hplay1 hbusy1
      by_cases h : o.snap.playback_state = .playing ∧ o.busy = true
      · rw [monitorExitObs, if_pos h] at ho1
        rw [monitorPlayback, if_pos h]
        exact ih o1 ho1 hplay1 hbusy1
      · rw [monitorExitObs, if_neg h] at ho1
        have ho : o = o1 := Option.some.inj ho1
        rw [monitorPlayback, if_neg h]
        rw [ho]
        exact if_pos ⟨hplay1, hbusy1⟩
  · intro h
    rw [playbackFinishedGuiUpdate, if_pos h]
    exact ⟨rfl, rfl, rfl⟩

/-- Claim C4 witness: a run that samples once and then observes the mixer
idle while still Playing schedules the finish update exactly once, and the
update pins the progress display at the ten-second duration. -/
theorem c4_natural_finish_witness :
    monitorExitObs [(⟨sessionPlaying, true, 2⟩ : MonObs), ⟨sessionPlaying, false, 3⟩]
        = some ⟨sessionPlaying, false, 3⟩ ∧
    sessionPlaying.playback_state = .playing ∧
    (monitorPlayback [(⟨sessionPlaying, true, 2⟩ : MonObs), ⟨sessionPlaying, false, 3⟩]).2
        = 1 ∧
    (playbackFinishedGuiUpdate sessionPlaying).progressValue = sessionPlaying.progressMax :=
  ⟨by decide, rfl,
   (c4_natural_finish [⟨sessionPlaying, true, 2⟩, ⟨sessionPlaying, false, 3⟩]
       sessionPlaying).2.1 ⟨sessionPlaying, false, 3⟩ (by decide) rfl rfl,
   ((c4_natural_finish [⟨sessionPlaying, true, 2⟩, ⟨sessionPlaying, false, 3⟩]
       sessionPlaying).2.2 rfl).2.1⟩

/-- Claim C5 counterexample: starting from a stopped session with no audio
file loaded whose progress display reads 3, the toggle reports
`NoAudioLoaded` and the state stays Stopped, but the progress display stays
at 3 rather than 0, contradicting the claim that on error the progress
display is at 0. -/
theorem c5_claim_counterexample :
    sessionStoppedNoFile.playback_state = .stopped ∧
    (togglePlayPause sessionStoppedNoFile 0 .err).2 = some .noAudioLoaded ∧
    ((togglePlayPause sessionStoppedNoFile 0 .err).1).playback_state = .stopped ∧
    ((togglePlayPause sessionStoppedNoFile 0 .err).1).progressValue = 3 ∧
    ((togglePlayPause sessionStoppedNoFile 0 .err).1).progressValue ≠ 0 := by
  refine ⟨rfl, ?_, ?_, ?_, ?_⟩ <;> simp [togglePlayPause, sessionStoppedNoFile]

/-- Claim C5 (amended): when the toggle is invoked from Stopped, a missing
audio resource is reported as `NoAudioLoaded` with the whole session left
unchanged (so the progress display keeps its prior value), and a rejected
load is reported as `PlaybackDeviceError` with the state remaining Stopped
and the progress display explicitly reset to 0. -/
theorem c5_start_error_paths (s : AppState) (now : ℚ) (load : LoadResult)
    (hstop : s.playback_state = .stopped) :
    (s.current_filepath = none → togglePlayPause s now load = (s, some .noAudioLoaded)) ∧
    (s.current_filepath ≠ none → s.sound_object = none →
      togglePlayPause s now .err =
        ({ s with playback_state := .stopped, playButtonText := "Play",
                  progressValue := 0 },
         some .playbackDeviceError)) := by
  constructor
  · intro hf
    rw [togglePlayPause.eq_def, if_pos hf]
  · intro hf hsound
    rw [togglePlayPause.eq_def, if_neg hf, hstop, hsound]

/-- Claim C5 witness: both error paths evaluated on concrete stopped
sessions. -/
theorem c5_start_error_paths_witness :
    togglePlayPause sessionStoppedNoFile 0 .err = (sessionStoppedNoFile, some .noAudioLoaded) ∧
    (togglePlayPause sessionStoppedLoaded 0 .err).2 = some .playbackDeviceError ∧
    ((togglePlayPause sessionStoppedLoaded 0 .err).1).playback_state = .stopped ∧
    ((togglePlayPause sessionStoppedLoaded 0 .err).1).progressValue = 0 :=
  ⟨(c5_start_error_paths sessionStoppedNoFile 0 .err rfl).1 rfl,
   by rw [(c5_start_error_paths sessionStoppedLoaded 0 .err rfl).2 (by decide) rfl],
   by rw [(c5_start_error_paths sessionStoppedLoaded 0 .err rfl).2 (by decide) rfl],
   by rw [(c5_start_error_paths sessionStoppedLoaded 0 .err rfl).2 (by decide) rfl]⟩

theorem dropWhile_isPySpace_replicate_a (n : Nat) :
    (List.replicate n 'a').dropWhile isPySpace = List.replicate n 'a' := by
  cases n with
  | zero => rfl
  | succ m =>
    rw [List.replicate_succ, List.dropWhile_cons]
    simp [isPySpace]

theorem pyStrip_replicate_a (n : Nat) :
    pyStrip (List.replicate n 'a') = List.replicate n 'a' := by
  unfold pyStrip
  rw [dropWhile_isPySpace_replicate_a, List.reverse_replicate,
    dropWhile_isPySpace_replicate_a, List.reverse_replicate]

theorem pyStrip_space_replicate_a (n : Nat) :
    pyStrip (' ' :: List.replicate n 'a') = List.replicate n 'a' := by
  unfold pyStrip
  rw [List.dropWhile_cons, show isPySpace ' ' = true from rfl, if_pos rfl]
  rw [dropWhile_isPySpace_replicate_a, List.reverse_replicate,
    dropWhile_isPySpace_replicate_a, List.reverse_replicate]

/-- Claim C6 counterexample: an input of 4097 characters (a leading blank
followed by 4096 letters) exceeds the 4096-character count, yet the
submission starts the conversion thread — and hence the network call —
because the limit is checked on the stripped text only. -/
theorem c6_claim_counterexample :
    (' ' :: List.replicate 4096 'a').length > 4096 ∧
    convertTtsThreaded (' ' :: List.replicate 4096 'a') ['s'] =
      .startConversionThread (List.replicate 4096 'a') ['s'] := by
  constructor
  · rw [List.length_cons, List.length_replicate]
    norm_num
  · rw [convertTtsThreaded.eq_def]
    simp only [pyStrip_space_replicate_a, List.length_replicate]
    rw [if_neg (by norm_num)]
    rw [if_neg (fun h => absurd h.1 (by norm_num))]
    rw [show pyStrip ['s'] = ['s'] from rfl]
    rw [if_neg (by decide)]

/-- Claim C6 (amended): whenever the character count of the input text
after stripping leading and trailing whitespace exceeds 4096, the
submission is rejected with the `InputTooLong` message before any network
synthesis call, and no conversion thread is started. -/
theorem c6_too_long_rejected (rawText rawOutput : List Char)
    (h : (pyStrip rawText).length > 4096) :
    convertTtsThreaded rawText rawOutput = .rejectInputTooLong := by
  rw [convertTtsThreaded.eq_def, if_pos h]

/-- Claim C6 witness: 4097 letters (no surrounding whitespace) are rejected
as too long. -/
theorem c6_too_long_rejected_witness :
    (pyStrip (List.replicate 4097 'a')).length > 4096 ∧
    convertTtsThreaded (List.replicate 4097 'a') ['s'] = .rejectInputTooLong :=
  ⟨by rw [pyStrip_replicate_a, List.length_replicate]; norm_num,
   c6_too_long_rejected (List.replicate 4097 'a') ['s']
     (by rw [pyStrip_replicate_a, List.length_replicate]; norm_num)⟩

/-- Claim C7: when the required credential is absent at process start, the
entry point `main_gui` blocks with a startup error before any application
window — and hence any synthesis trigger — exists, so attempting synthesis
is impossible through the normal UI flow: no startup produces a usable
synthesis trigger without the credential. -/
theorem c7_missing_key_blocks_synthesis :
    mainGui false = .blockedMissingKey ∧
    synthesisTriggerAvailable (mainGui false) = false :=
  ⟨rfl, rfl⟩

/-- Claim C8: the code violates the at-most-one-monitor-loop contract.
Starting playback spawns an unnamed monitor thread (Python default name
"Thread-1"); pausing and quickly resuming spawns a second one, because the
resume branch only checks for a thread named "_monitor_playback_thread"
and the first loop does not carry that name.  After start, pause, resume
— with the first loop still alive — two monitor loops are active while the
state is Playing. -/
theorem c8_duplicate_monitor_loops :
    ((togglePlayPause ((togglePlayPause ((togglePlayPause sessionStoppedLoaded 0
          (.ok 10)).1) 1 .err).1) 2 .err).1).monitorThreads
        = ["Thread-1", "_monitor_playback_thread"] ∧
    ((togglePlayPause ((togglePlayPause ((togglePlayPause sessionStoppedLoaded 0
          (.ok 10)).1) 1 .err).1) 2 .err).1).monitorThreads.length = 2 ∧
    ((togglePlayPause ((togglePlayPause ((togglePlayPause sessionStoppedLoaded 0
          (.ok 10)).1) 1 .err).1) 2 .err).1).playback_state = .playing := by
  have hne : ¬ ("Thread-" ++ toString 1 : String) = "_monitor_playback_thread" := by
    decide
  have hname : ("Thread-" ++ toString 1 : String) = "Thread-1" := by decide
  refine ⟨?_, ?_, ?_⟩ <;>
    simp [togglePlayPause, startPlay, sessionStoppedLoaded, monitorThreadName, hne, hname]

/-- Claim C9 counterexample: completing a conversion from a paused session
holding five seconds of accumulated elapsed time leaves
`paused_elapsed_time` at 5, not 0, although the state does become Stopped
and the progress display is reset. -/
theorem c9_claim_counterexample :
    (performTtsConversionSuccess sessionPausedAccum "new.mp3").playback_state
        = .stopped ∧
    (performTtsConversionSuccess sessionPausedAccum "new.mp3").progressValue = 0 ∧
    (performTtsConversionSuccess sessionPausedAccum "new.mp3").paused_elapsed_time = 5 ∧
    (performTtsConversionSuccess sessionPausedAccum "new.mp3").paused_elapsed_time ≠ 0 := by
  refine ⟨rfl, rfl, rfl, ?_⟩
  decide

/-- Claim C9 (amended): whenever a conversion completes successfully, the
session state becomes Stopped, the progress display is reset to 0, the
loaded sound object is dropped and the new file path is stored — but the
accumulated elapsed time is left unchanged (it is only reset by the next
start, stop or natural finish). -/
theorem c9_conversion_success_reset (s : AppState) (path : String) :
    (performTtsConversionSuccess s path).playback_state = .stopped ∧
    (performTtsConversionSuccess s path).progressValue = 0 ∧
    (performTtsConversionSuccess s path).sound_object = none ∧
    (performTtsConversionSuccess s path).current_filepath = some path ∧
    (performTtsConversionSuccess s path).paused_elapsed_time = s.paused_elapsed_time :=
  ⟨rfl, rfl, rfl, rfl, rfl⟩

/-- Claim C10: `text_to_speech_gui` resolves a non-absolute output filename
against the directory containing the program's source file and uses an
absolute one as given (the spec-side rule `specResolveOutput`), and its
filesystem actions are: create the resolved path's parent directories,
then stream the audio to the resolved path. -/
theorem c10_output_path_resolution (scriptDir : PurePath) (output_filename : String) :
    ttsGuiSpeechFilePath scriptDir output_filename
        = specResolveOutput scriptDir output_filename ∧
    ttsGuiFileEffects scriptDir output_filename =
      [.mkdirParents (pathParent (specResolveOutput scriptDir output_filename)),
       .streamToFile (specResolveOutput scriptDir output_filename)] := by
  have h : ttsGuiSpeechFilePath scriptDir output_filename
      = specResolveOutput scriptDir output_filename := by
    unfold ttsGuiSpeechFilePath specResolveOutput pathJoin
    by_cases h : (parsePath output_filename).absolute
    · simp [h]
    · simp [h]
  refine ⟨h, ?_⟩
  rw [ttsGuiFileEffects, h]

end TTSTool
